import Mathlib

/-!
Verification of the Customer schema transform
(`src/application/blueprints/customer/customerSchemas.py`).

The file shallowly embeds the load/dump pipeline of `CustomerSchema`
and `LoginSchema`: pre-load whitespace normalization (`process_input`),
field validation, materialization of the record, and the post-load
password-hashing hook (`hash_password` with its inner `_hash` helper),
together with the dump projections (`customer_schema`,
`customer_simple_schema`) and the nested `ServiceTicketSchema` dump.

Inbound wire values are modelled by `Value` (string / integer / null),
and a request body by an association list `List (String × Value)`.
Machine-level details absent from the claims (byte encodings, the exact
bcrypt algorithm) are modelled abstractly; see the doc comments on
`bcrypt_hashpw` and `gensalt_text`.
-/

/-- A raw wire value of an inbound mapping: a JSON string, an integer, or null.
Only these shapes occur in the claims; the distinction that matters to the
code is string vs. non-string (`isinstance(value, str)`). -/
inductive Value where
  | vstr (s : String)
  | vint (n : Int)
  | vnone
deriving DecidableEq, Repr

/-- True exactly on string-valued wire values (`isinstance(value, str)`). -/
def Value.isStr : Value → Bool
  | .vstr _ => true
  | _ => false

/-- The Python `str.strip()` operation: drop leading and trailing whitespace. -/
def py_strip (s : String) : String :=
  String.mk (((s.data.dropWhile Char.isWhitespace).reverse.dropWhile
    Char.isWhitespace).reverse)

/-- The effect of the pre-load hook on one wire value: a string is replaced
by its whitespace-stripped form (`value.strip()` under the
`isinstance(value, str)` test); a non-string passes through unchanged. -/
def norm_value : Value → Value
  | Value.vstr s => Value.vstr (py_strip s)
  | v => v

/-- The per-entry effect of the pre-load hook on one `(key, value)` pair:
a string value under a key other than `password` is stripped; everything
else is unchanged. -/
def norm_entry (kv : String × Value) : String × Value :=
  (kv.1, if kv.1 = "password" then kv.2 else norm_value kv.2)

/-- The `@pre_load` hook `CustomerSchema.process_input`: strips whitespace
from every string field of the input mapping except `password`.  The Python
code mutates the dict in place (`data[key] = value.strip()`) and returns it;
here the mutation is made explicit by returning the updated mapping. -/
def process_input (data : List (String × Value)) : List (String × Value) :=
  data.map norm_entry

/-- Modelled from the spec: the salt text produced by the external
`bcrypt.gensalt()` primitive for a given draw `salt` of the random source.
Only the property needed by the spec is modelled: distinct random draws
yield distinct salt texts (here, texts of distinct lengths). -/
def gensalt_text (salt : Nat) : String :=
  String.mk (List.replicate salt 's')

/-- Modelled from the spec: the external `bcrypt.hashpw` primitive — a
salted one-way hash "producing text output with a recognizable algorithm
marker prefix" (spec §6), i.e. text starting with the `$2` marker.  The
decoded hash text is modelled as the `$2b$12$` marker, the salt text, a
separator and a trailing section determined by the password. -/
def bcrypt_hashpw (pw : String) (salt : Nat) : String :=
  "$2b$12$" ++ gensalt_text salt ++ "$" ++ pw

/-- The guard `raw_pw.startswith` applied to the `$2` marker in `_hash`:
true when the string begins with the characters `$` `2` (the bcrypt marker shape). -/
def is_bcrypt_shaped (s : String) : Bool :=
  match s.data with
  | c1 :: c2 :: _ => c1 == '$' && c2 == '2'
  | _ => false

/-- The inner helper `_hash` of `CustomerSchema.hash_password`: an empty
(falsy) password is returned as is; a value already carrying the `$2`
bcrypt marker is returned unchanged (idempotence guard); otherwise the
salted bcrypt hash text is returned.  `salt` is the random draw consumed
by `bcrypt.gensalt()` on this invocation. -/
def _hash (raw_pw : String) (salt : Nat) : String :=
  if raw_pw = "" then raw_pw
  else if is_bcrypt_shaped raw_pw then raw_pw
  else bcrypt_hashpw raw_pw salt

/-- The in-memory Customer record produced by a successful load
(`load_instance=True` materializes a `Customer` model instance; `id` and
`created_at` are `dump_only`, so a load never sets them). -/
structure Customer where
  first_name : String
  last_name : String
  email : String
  password : String
  phone : Option String
  address : Option String
deriving DecidableEq, Repr

/-- The `@post_load` hook `CustomerSchema.hash_password` on a materialized
record: when the password attribute is truthy (non-empty) it is replaced by
`_hash` of it; otherwise the record is unchanged. -/
def hash_password (c : Customer) (salt : Nat) : Customer :=
  if c.password = "" then c
  else { c with password := _hash c.password salt }

/-- Modelled from the spec: "must match email-address syntax" — the check
performed by the external `marshmallow.fields.Email` validator.  A value
passes when it splits on a single `@` into a non-empty local part and a
non-empty domain that contains a dot and neither starts nor ends with one. -/
def is_valid_email (s : String) : Bool :=
  let l := s.data.takeWhile (fun c => c != '@')
  match s.data.dropWhile (fun c => c != '@') with
  | '@' :: d =>
      !l.isEmpty && !d.isEmpty && !d.contains '@' && d.contains '.' &&
      d.head? != some '.' && d.getLast? != some '.'
  | _ => false

/-- The violation messages of `validate.Length(min=1, max=50)` on
`first_name` / `last_name`. -/
def check_len_1_50 (s : String) : List String :=
  if s.length < 1 ∨ 50 < s.length then ["Length must be between 1 and 50."] else []

/-- The violation messages of `validate.Length(min=6)` on `password`. -/
def check_len_min_6 (s : String) : List String :=
  if s.length < 6 then ["Shorter than minimum length 6."] else []

/-- The violation messages of `validate.Length(max=20)` on `phone`. -/
def check_len_max_20 (s : String) : List String :=
  if 20 < s.length then ["Longer than maximum length 20."] else []

/-- The violation messages of `validate.Length(max=200)` on `address`. -/
def check_len_max_200 (s : String) : List String :=
  if 200 < s.length then ["Longer than maximum length 200."] else []

/-- Validation of one required `fields.Str` field: a missing key is
reported as a missing required field, a non-string value as a type error,
and a present string is run through the length validator of the field. -/
def check_required_str (d : List (String × Value)) (name : String)
    (check : String → List String) : List (String × List String) :=
  match d.lookup name with
  | none => [(name, ["Missing data for required field."])]
  | some (Value.vstr s) =>
      match check s with
      | [] => []
      | msgs => [(name, msgs)]
  | some _ => [(name, ["Not a valid string."])]

/-- Validation of one optional `fields.Str` field: an absent key is fine,
a non-string value is a type error, and a present string is run through
the length validator of the field. -/
def check_optional_str (d : List (String × Value)) (name : String)
    (check : String → List String) : List (String × List String) :=
  match d.lookup name with
  | none => []
  | some (Value.vstr s) =>
      match check s with
      | [] => []
      | msgs => [(name, msgs)]
  | some _ => [(name, ["Not a valid string."])]

/-- Validation of a required `fields.Email` field named `name`. -/
def check_email_field (d : List (String × Value)) (name : String) :
    List (String × List String) :=
  match d.lookup name with
  | none => [(name, ["Missing data for required field."])]
  | some (Value.vstr s) =>
      if is_valid_email s then [] else [(name, ["Not a valid email address."])]
  | some _ => [(name, ["Not a valid string."])]

/-- The keys `CustomerSchema` accepts on load: its six non-`dump_only`
declared fields (`id`, `created_at` and `service_tickets` are `dump_only`). -/
def customer_load_field_names : List String :=
  ["first_name", "last_name", "email", "password", "phone", "address"]

/-- The marshmallow default `unknown=RAISE` behaviour: every key of the input
that is not a loadable field is reported as an unknown field. -/
def check_unknown_keys (d : List (String × Value)) (allowed : List String) :
    List (String × List String) :=
  (d.filter (fun kv => !(allowed.contains kv.1))).map
    (fun kv => (kv.1, ["Unknown field."]))

/-- The field-keyed validation errors `CustomerSchema` raises on an input
mapping: per-field constraint checks of the six loadable fields plus the
unknown-key check.  An empty result means validation passed. -/
def validate_customer (d : List (String × Value)) : List (String × List String) :=
  check_required_str d "first_name" check_len_1_50 ++
  check_required_str d "last_name" check_len_1_50 ++
  check_email_field d "email" ++
  check_required_str d "password" check_len_min_6 ++
  check_optional_str d "phone" check_len_max_20 ++
  check_optional_str d "address" check_len_max_200 ++
  check_unknown_keys d customer_load_field_names

/-- The string value stored under key `k`, when `k` is present with a
string value. -/
def get_str_field (d : List (String × Value)) (k : String) : Option String :=
  match d.lookup k with
  | some (Value.vstr s) => some s
  | _ => none

/-- Materialization of the validated mapping into a `Customer` instance
(the `load_instance=True` step).  Only called after validation has
succeeded, which guarantees the required fields are present as strings;
the `getD ""` defaults are therefore never exercised on the success path. -/
def materialize (d : List (String × Value)) : Customer :=
  { first_name := (get_str_field d "first_name").getD ""
    last_name := (get_str_field d "last_name").getD ""
    email := (get_str_field d "email").getD ""
    password := (get_str_field d "password").getD ""
    phone := get_str_field d "phone"
    address := get_str_field d "address" }

/-- The operation `customer_schema.load(data)`: pre-load normalization, then validation
(raising the field-keyed `ValidationError` mapping when non-empty), then
materialization and the post-load password hash.  `salt` is the random
draw consumed by `bcrypt.gensalt()` during this invocation. -/
def customer_load (data : List (String × Value)) (salt : Nat) :
    Except (List (String × List String)) Customer :=
  if validate_customer (process_input data) = [] then
    Except.ok (hash_password (materialize (process_input data)) salt)
  else Except.error (validate_customer (process_input data))

/-- The operation `customer_schema.load(data)` together with the final contents of the
input mapping of the caller: the `@pre_load` hook assigns `data[key] =
value.strip()` into the very dict the caller passed, before validation
runs, so after the call the mapping held by the caller holds the normalized
entries whether or not validation succeeded. -/
def customer_load_state (data : List (String × Value)) (salt : Nat) :
    Except (List (String × List String)) Customer × List (String × Value) :=
  (customer_load data salt, process_input data)

/-- The record shape dumped by `CustomerSchema`: a persisted customer,
including the storage-assigned `id` and `created_at` and the related
service tickets. -/
structure ServiceTicket where
  id : Int
  description : String
  customer_id : Int
deriving DecidableEq, Repr

/-- A persisted Customer record as seen by dump. -/
structure CustomerRecord where
  id : Int
  first_name : String
  last_name : String
  email : String
  password : String
  phone : Option String
  address : Option String
  created_at : String
  service_tickets : List ServiceTicket
deriving DecidableEq, Repr

/-- An outbound wire value: a primitive, or the embedded list of nested
ticket projections produced by the `fields.Nested(..., many=True)` field. -/
inductive DVal where
  | prim (v : Value)
  | nested_many (objs : List (List (String × Value)))
deriving DecidableEq, Repr

/-- Modelled from the spec: the dump of one ticket by `ServiceTicketSchema`
(defined elsewhere in the repository, outside `src/`), as used here with
`exclude` of the back-reference field: the own fields of the ticket are
projected and the
back-reference key `customer` is excluded to avoid a cycle. -/
def service_ticket_dump (t : ServiceTicket) : List (String × Value) :=
  [("id", Value.vint t.id),
   ("description", Value.vstr t.description),
   ("customer_id", Value.vint t.customer_id)]

/-- The dumpable fields of `CustomerSchema`, in declaration order.
`password` is absent because it is declared `load_only=True` and is
therefore never serialized. -/
def customer_dump_field_names : List String :=
  ["first_name", "last_name", "email", "phone", "address",
   "id", "created_at", "service_tickets"]

/-- The outbound value of one dumped field of a record.  Optional fields
that are unset dump as null. -/
def field_value (r : CustomerRecord) (f : String) : DVal :=
  if f = "first_name" then DVal.prim (Value.vstr r.first_name)
  else if f = "last_name" then DVal.prim (Value.vstr r.last_name)
  else if f = "email" then DVal.prim (Value.vstr r.email)
  else if f = "phone" then DVal.prim ((r.phone.map Value.vstr).getD Value.vnone)
  else if f = "address" then DVal.prim ((r.address.map Value.vstr).getD Value.vnone)
  else if f = "id" then DVal.prim (Value.vint r.id)
  else if f = "created_at" then DVal.prim (Value.vstr r.created_at)
  else if f = "service_tickets" then
    DVal.nested_many (r.service_tickets.map service_ticket_dump)
  else DVal.prim Value.vnone

/-- The dump operation of a `CustomerSchema` instance: the dumpable fields,
minus the exclusions of the schema instance, each rendered from the record.
Dump is a total projection: it checks no constraint and has no error
outcome. -/
def customer_dump (excludes : List String) (r : CustomerRecord) :
    List (String × DVal) :=
  (customer_dump_field_names.filter (fun f => !(excludes.contains f))).map
    (fun f => (f, field_value r f))

/-- The full dump mode, `customer_schema.dump(record)` (no exclusions). -/
def customer_schema_dump (r : CustomerRecord) : List (String × DVal) :=
  customer_dump [] r

/-- The simple dump mode, `customer_simple_schema.dump(record)`,
excluding `service_tickets` and `password`. -/
def customer_simple_schema_dump (r : CustomerRecord) : List (String × DVal) :=
  customer_dump ["service_tickets", "password"] r

/-- The credentials produced by a successful `login_schema.load`. -/
structure LoginData where
  email : String
  password : String
deriving DecidableEq, Repr

/-- The keys `LoginSchema` accepts: exactly `email` and `password`. -/
def login_field_names : List String := ["email", "password"]

/-- The field-keyed validation errors `LoginSchema` raises: a required
email-syntax check on `email`, a required minimum-length-6 check on
`password`, and the unknown-key check.  `LoginSchema` declares no other
field and installs no pre- or post-load hook. -/
def validate_login (d : List (String × Value)) : List (String × List String) :=
  check_email_field d "email" ++
  check_required_str d "password" check_len_min_6 ++
  check_unknown_keys d login_field_names

/-- The operation `login_schema.load(data)`: validate the credential fields and
return them unchanged — no normalization and no hashing. -/
def login_load (data : List (String × Value)) :
    Except (List (String × List String)) LoginData :=
  if validate_login data = [] then
    Except.ok { email := (get_str_field data "email").getD ""
                password := (get_str_field data "password").getD "" }
  else Except.error (validate_login data)

/-! ## Shared lemmas about the load pipeline -/

/-- Lookup after pre-load normalization: the entry under `password` is kept
verbatim, every other entry is normalized. -/
theorem lookup_process_input (d : List (String × Value)) (k : String) :
    (process_input d).lookup k =
      (d.lookup k).map (fun v => if k = "password" then v else norm_value v) := by
  induction d with
  | nil => rfl
  | cons kv t ih =>
    obtain ⟨k1, v⟩ := kv
    by_cases hk : k = k1
    · subst hk
      simp [process_input, norm_entry, List.lookup]
    · have hb : (k == k1) = false := by simp [hk]
      simp only [process_input, List.map_cons, norm_entry, List.lookup, hb]
      simpa [process_input] using ih

/-- A passing validation forces the `password` key to hold a string of
length at least 6. -/
theorem password_of_validate_ok (d : List (String × Value))
    (h : validate_customer d = []) :
    ∃ p, d.lookup "password" = some (Value.vstr p) ∧ 6 ≤ p.length := by
  have hpw : check_required_str d "password" check_len_min_6 = [] := by
    unfold validate_customer at h
    simp only [List.append_eq_nil] at h
    exact h.1.1.1.2
  unfold check_required_str at hpw
  cases hl : d.lookup "password" with
  | none => rw [hl] at hpw; simp at hpw
  | some v =>
    rw [hl] at hpw
    cases v with
    | vstr s =>
      by_cases hlen : s.length < 6
      · exfalso
        have hc : check_len_min_6 s = ["Shorter than minimum length 6."] := by
          simp [check_len_min_6, hlen]
        simp [hc] at hpw
      · exact ⟨s, rfl, by omega⟩
    | vint n => simp at hpw
    | vnone => simp at hpw

/-- A successful load means validation of the normalized input passed and
the result is the hashed materialization. -/
theorem load_ok_elim {data : List (String × Value)} {salt : Nat} {c : Customer}
    (h : customer_load data salt = Except.ok c) :
    validate_customer (process_input data) = [] ∧
      c = hash_password (materialize (process_input data)) salt := by
  by_cases he : validate_customer (process_input data) = []
  · refine ⟨he, ?_⟩
    unfold customer_load at h
    rw [if_pos he] at h
    exact (Except.ok.inj h).symm
  · unfold customer_load at h
    rw [if_neg he] at h
    exact Except.noConfusion h

/-- A string of length at least 6 is not empty. -/
theorem ne_empty_of_six_le {p : String} (h : 6 ≤ p.length) : p ≠ "" := by
  intro he
  rw [he] at h
  have h0 : ("" : String).length = 0 := rfl
  omega

/-- On a successful load whose input carried the raw password string `p`,
the loaded record holds `_hash p salt` and `p` passed the length check. -/
theorem password_of_load_ok {data : List (String × Value)} {salt : Nat}
    {c : Customer} {p : String}
    (h : customer_load data salt = Except.ok c)
    (hp : data.lookup "password" = some (Value.vstr p)) :
    6 ≤ p.length ∧ c.password = _hash p salt := by
  obtain ⟨hv, hc⟩ := load_ok_elim h
  obtain ⟨q, hq, hlen⟩ := password_of_validate_ok _ hv
  have hlift : (process_input data).lookup "password" = data.lookup "password" := by
    rw [lookup_process_input]
    cases data.lookup "password" <;> simp
  have hq2 : (process_input data).lookup "password" = some (Value.vstr p) := by
    rw [hlift, hp]
  have hqp : q = p := by
    rw [hq] at hq2
    exact Value.vstr.inj (Option.some.inj hq2)
  subst hqp
  have hg : get_str_field (process_input data) "password" = some q := by
    unfold get_str_field
    rw [hq]
  have hpne : q ≠ "" := ne_empty_of_six_le hlen
  refine ⟨hlen, ?_⟩
  rw [hc]
  unfold hash_password materialize
  simp [hg, hpne]

/-- The length of the modelled bcrypt hash text. -/
theorem bcrypt_hashpw_length (p : String) (s : Nat) :
    (bcrypt_hashpw p s).length = p.length + s + 8 := by
  have h2 : (gensalt_text s).length = s := List.length_replicate s 's'
  simp only [bcrypt_hashpw, String.length_append, h2]
  have h1 : ("$2b$12$" : String).length = 7 := rfl
  have h3 : ("$" : String).length = 1 := rfl
  omega

/-- The modelled bcrypt hash text carries the `$2` marker shape. -/
theorem bcrypt_hashpw_shaped (p : String) (s : Nat) :
    is_bcrypt_shaped (bcrypt_hashpw p s) = true := rfl

/-- The modelled bcrypt hash text is never empty. -/
theorem bcrypt_hashpw_ne_empty (p : String) (s : Nat) : bcrypt_hashpw p s ≠ "" := by
  intro h
  have hlen := congrArg String.length h
  rw [bcrypt_hashpw_length] at hlen
  have h0 : ("" : String).length = 0 := rfl
  omega

/-- `_hash` fixes every value that already carries the `$2` marker shape. -/
theorem hash_fixes_shaped (s : String) (salt : Nat)
    (h : is_bcrypt_shaped s = true) : _hash s salt = s := by
  unfold _hash
  by_cases h0 : s = ""
  · rw [if_pos h0]
  · rw [if_neg h0, if_pos h]

/-- On a non-empty value without the `$2` marker shape, `_hash` produces
the bcrypt hash text. -/
theorem hash_of_raw (s : String) (salt : Nat) (h0 : s ≠ "")
    (h : is_bcrypt_shaped s = false) : _hash s salt = bcrypt_hashpw s salt := by
  unfold _hash
  rw [if_neg h0, if_neg (by simp [h])]

/-- A membership witness in the validation errors forces the load to fail
with those errors, which name the offending field. -/
theorem load_error_of_mem {data : List (String × Value)} {salt : Nat}
    {x : String × List String}
    (hmem : x ∈ validate_customer (process_input data)) :
    customer_load data salt = Except.error (validate_customer (process_input data)) ∧
    x.1 ∈ (validate_customer (process_input data)).map Prod.fst := by
  have hne : validate_customer (process_input data) ≠ [] := by
    intro h0
    rw [h0] at hmem
    cases hmem
  constructor
  · unfold customer_load
    rw [if_neg hne]
  · exact List.mem_map.mpr ⟨x, hmem, rfl⟩

/-- A missing key makes a required string field report the omission. -/
theorem check_required_str_of_missing (d : List (String × Value)) (name : String)
    (check : String → List String) (h : d.lookup name = none) :
    check_required_str d name check = [(name, ["Missing data for required field."])] := by
  unfold check_required_str
  rw [h]

/-- A missing key makes the email field report the omission. -/
theorem check_email_field_of_missing (d : List (String × Value)) (name : String)
    (h : d.lookup name = none) :
    check_email_field d name = [(name, ["Missing data for required field."])] := by
  unfold check_email_field
  rw [h]

/-- A present string that fails the length validator makes a required
string field report the violation messages. -/
theorem check_required_str_of_violation (d : List (String × Value)) (name : String)
    (check : String → List String) (s m : String) (ms : List String)
    (hl : d.lookup name = some (Value.vstr s)) (hc : check s = m :: ms) :
    check_required_str d name check = [(name, m :: ms)] := by
  unfold check_required_str
  rw [hl]
  simp [hc]

/-- A present string that fails the length validator makes an optional
string field report the violation messages. -/
theorem check_optional_str_of_violation (d : List (String × Value)) (name : String)
    (check : String → List String) (s m : String) (ms : List String)
    (hl : d.lookup name = some (Value.vstr s)) (hc : check s = m :: ms) :
    check_optional_str d name check = [(name, m :: ms)] := by
  unfold check_optional_str
  rw [hl]
  simp [hc]

/-- Mapping a key-tagging function and projecting the keys back is the
identity on the key list. -/
theorem map_fst_tagged (l : List String) (g : String → DVal) :
    ((l.map (fun f => (f, g f))).map Prod.fst) = l := by
  induction l with
  | nil => rfl
  | cons a t ih => simp [ih]

/-- The keys of a dump are the dumpable field names minus the exclusions. -/
theorem customer_dump_keys (ex : List String) (r : CustomerRecord) :
    (customer_dump ex r).map Prod.fst =
      customer_dump_field_names.filter (fun f => !(ex.contains f)) := by
  unfold customer_dump
  exact map_fst_tagged _ _

/-! ## Claim theorems -/

/-- C1, counterexample: the claim "for every input mapping that passes
validation, Load produces a record whose password attribute is not equal
to the original raw password" fails on the code.  The raw password
`$2abcdef` is valid (length 8 ≥ 6) but already carries the `$2` marker,
so the idempotence guard of `_hash` returns it verbatim and the loaded
record holds exactly the raw password the client sent. -/
theorem C1_counterexample :
    customer_load
      [("first_name", Value.vstr "Ann"), ("last_name", Value.vstr "Lee"),
       ("email", Value.vstr "ann@example.com"), ("password", Value.vstr "$2abcdef")] 0 =
    Except.ok { first_name := "Ann", last_name := "Lee", email := "ann@example.com",
                password := "$2abcdef", phone := none, address := none } := rfl

/-- C1, amended: for every input mapping that passes validation and whose
raw password value does not already carry the `$2` bcrypt marker shape,
Load produces a record whose password attribute differs from the raw
password supplied in the input (it is replaced by the bcrypt hash text). -/
theorem C1_load_password_transformed (data : List (String × Value)) (salt : Nat)
    (c : Customer) (p : String)
    (h : customer_load data salt = Except.ok c)
    (hp : data.lookup "password" = some (Value.vstr p))
    (hraw : is_bcrypt_shaped p = false) :
    c.password ≠ p := by
  obtain ⟨hlen, hcp⟩ := password_of_load_ok h hp
  have hpne : p ≠ "" := ne_empty_of_six_le hlen
  rw [hcp, hash_of_raw p salt hpne hraw]
  intro heq
  have hl := congrArg String.length heq
  rw [bcrypt_hashpw_length] at hl
  omega

/-- C1, witness: the amended theorem applied to a concrete valid load. -/
theorem C1_witness :
    ({ first_name := "Ann", last_name := "Lee", email := "ann@example.com",
       password := "$2b$12$$secret1", phone := none, address := none } : Customer).password
      ≠ "secret1" :=
  C1_load_password_transformed
    [("first_name", Value.vstr "Ann"), ("last_name", Value.vstr "Lee"),
     ("email", Value.vstr "ann@example.com"), ("password", Value.vstr "secret1")] 0
    { first_name := "Ann", last_name := "Lee", email := "ann@example.com",
      password := "$2b$12$$secret1", phone := none, address := none }
    "secret1" rfl rfl rfl

/-- C3: the hashing step is idempotent — a value that already carries the
`$2` bcrypt marker shape is returned unchanged by `_hash`, and more
generally applying `_hash` to any output of `_hash` changes nothing, so
no double-hashing can occur. -/
theorem C3_hash_idempotent :
    (∀ s salt, is_bcrypt_shaped s = true → _hash s salt = s) ∧
    (∀ s salt1 salt2, _hash (_hash s salt1) salt2 = _hash s salt1) := by
  constructor
  · exact fun s salt h => hash_fixes_shaped s salt h
  · intro s s1 s2
    by_cases h0 : s = ""
    · subst h0
      rfl
    · by_cases hsh : is_bcrypt_shaped s = true
      · rw [hash_fixes_shaped s s1 hsh]
        exact hash_fixes_shaped s s2 hsh
      · have hf : is_bcrypt_shaped s = false := by
          revert hsh
          cases is_bcrypt_shaped s <;> simp
        rw [hash_of_raw s s1 h0 hf]
        exact hash_fixes_shaped _ s2 (bcrypt_hashpw_shaped s s1)

/-- C3, witness: the idempotence guard evaluated on a concrete value that
carries the `$2` marker shape. -/
theorem C3_witness :
    is_bcrypt_shaped "$2b$old" = true ∧ _hash "$2b$old" 7 = "$2b$old" :=
  ⟨rfl, C3_hash_idempotent.1 "$2b$old" 7 rfl⟩

/-- C10: the hashing step is not deterministic across invocations — two
loads of the same input mapping whose raw password is non-empty and not
already bcrypt-shaped produce different password hash texts whenever the
two invocations consume distinct random salt draws (`bcrypt.gensalt()`
is called afresh inside `_hash` on every call). -/
theorem C10_hash_not_deterministic
    (data : List (String × Value)) (p : String) (salt1 salt2 : Nat)
    (c1 c2 : Customer)
    (h1 : customer_load data salt1 = Except.ok c1)
    (h2 : customer_load data salt2 = Except.ok c2)
    (hp : data.lookup "password" = some (Value.vstr p))
    (hraw : is_bcrypt_shaped p = false)
    (hs : salt1 ≠ salt2) :
    c1.password ≠ c2.password := by
  obtain ⟨hlen, hc1⟩ := password_of_load_ok h1 hp
  obtain ⟨_, hc2⟩ := password_of_load_ok h2 hp
  have hpne : p ≠ "" := ne_empty_of_six_le hlen
  rw [hc1, hc2, hash_of_raw p salt1 hpne hraw, hash_of_raw p salt2 hpne hraw]
  intro heq
  have hl := congrArg String.length heq
  rw [bcrypt_hashpw_length, bcrypt_hashpw_length] at hl
  omega

/-- C10, witness: two loads of the same valid input under distinct salt
draws, yielding distinct stored hashes. -/
theorem C10_witness :
    ({ first_name := "Ann", last_name := "Lee", email := "ann@example.com",
       password := "$2b$12$$secret1", phone := none, address := none } : Customer).password
      ≠
    ({ first_name := "Ann", last_name := "Lee", email := "ann@example.com",
       password := "$2b$12$s$secret1", phone := none, address := none } : Customer).password :=
  C10_hash_not_deterministic
    [("first_name", Value.vstr "Ann"), ("last_name", Value.vstr "Lee"),
     ("email", Value.vstr "ann@example.com"), ("password", Value.vstr "secret1")]
    "secret1" 0 1
    { first_name := "Ann", last_name := "Lee", email := "ann@example.com",
      password := "$2b$12$$secret1", phone := none, address := none }
    { first_name := "Ann", last_name := "Lee", email := "ann@example.com",
      password := "$2b$12$s$secret1", phone := none, address := none }
    rfl rfl rfl rfl (by decide)

/-- C4: during Load, normalization replaces every string-valued input field
except `password` by its whitespace-stripped form before validation runs,
non-string values pass through unchanged, the `password` entry reaches
validation untouched, and a password whose raw length is below 6 makes the
load fail with an error naming `password` regardless of its trimmed form. -/
theorem C4_normalization (data : List (String × Value)) (salt : Nat)
    (k p s : String) (v : Value) :
    (k ≠ "password" → data.lookup k = some (Value.vstr s) →
      (process_input data).lookup k = some (Value.vstr (py_strip s))) ∧
    (data.lookup k = some v → v.isStr = false →
      (process_input data).lookup k = some v) ∧
    ((process_input data).lookup "password" = data.lookup "password") ∧
    (data.lookup "password" = some (Value.vstr p) → p.length < 6 →
      customer_load data salt =
        Except.error (validate_customer (process_input data)) ∧
      "password" ∈ (validate_customer (process_input data)).map Prod.fst) := by
  refine ⟨?_, ?_, ?_, ?_⟩
  · intro hk hl
    rw [lookup_process_input, hl]
    simp [hk, norm_value]
  · intro hl hv
    rw [lookup_process_input, hl]
    cases v with
    | vstr s2 => simp [Value.isStr] at hv
    | vint n => simp [norm_value]
    | vnone => simp [norm_value]
  · rw [lookup_process_input]
    cases data.lookup "password" <;> simp
  · intro hp hlen
    have hl : (process_input data).lookup "password" = some (Value.vstr p) := by
      rw [lookup_process_input, hp]
      simp
    have herr : check_required_str (process_input data) "password" check_len_min_6
        = [("password", ["Shorter than minimum length 6."])] := by
      unfold check_required_str
      rw [hl]
      have hc : check_len_min_6 p = ["Shorter than minimum length 6."] := by
        simp [check_len_min_6, hlen]
      simp [hc]
    have hmem : ("password", ["Shorter than minimum length 6."])
        ∈ validate_customer (process_input data) := by
      unfold validate_customer
      simp [herr]
    exact load_error_of_mem hmem

/-- C4, witness: the theorem evaluated on a concrete mapping holding a
padded name, a non-string value, and the raw password `" abc "` whose
untrimmed length 5 fails the minimum-length-6 check even though only the
name field gets stripped. -/
theorem C4_witness :
    (process_input [("first_name", Value.vstr " Ann "), ("age", Value.vint 30),
        ("password", Value.vstr " abc ")]).lookup "first_name"
      = some (Value.vstr "Ann") ∧
    (process_input [("first_name", Value.vstr " Ann "), ("age", Value.vint 30),
        ("password", Value.vstr " abc ")]).lookup "age" = some (Value.vint 30) ∧
    (process_input [("first_name", Value.vstr " Ann "), ("age", Value.vint 30),
        ("password", Value.vstr " abc ")]).lookup "password"
      = some (Value.vstr " abc ") ∧
    (customer_load [("first_name", Value.vstr " Ann "), ("age", Value.vint 30),
        ("password", Value.vstr " abc ")] 0 =
      Except.error (validate_customer (process_input
        [("first_name", Value.vstr " Ann "), ("age", Value.vint 30),
         ("password", Value.vstr " abc ")])) ∧
      "password" ∈ (validate_customer (process_input
        [("first_name", Value.vstr " Ann "), ("age", Value.vint 30),
         ("password", Value.vstr " abc ")])).map Prod.fst) :=
  ⟨(C4_normalization [("first_name", Value.vstr " Ann "), ("age", Value.vint 30),
      ("password", Value.vstr " abc ")] 0 "first_name" " abc " " Ann "
      (Value.vint 30)).1 (by decide) rfl,
   (C4_normalization [("first_name", Value.vstr " Ann "), ("age", Value.vint 30),
      ("password", Value.vstr " abc ")] 0 "age" " abc " " Ann "
      (Value.vint 30)).2.1 rfl rfl,
   ((C4_normalization [("first_name", Value.vstr " Ann "), ("age", Value.vint 30),
      ("password", Value.vstr " abc ")] 0 "age" " abc " " Ann "
      (Value.vint 30)).2.2.1).trans rfl,
   (C4_normalization [("first_name", Value.vstr " Ann "), ("age", Value.vint 30),
      ("password", Value.vstr " abc ")] 0 "age" " abc " " Ann "
      (Value.vint 30)).2.2.2 rfl (by decide)⟩

/-- C5: Load fails with the field-keyed ValidationError mapping whenever
any field constraint is violated or a required field is omitted, and the
error names each offending field — covering required-field omission, the
`email` format check, the 1..50 length bounds on the names (checked on
the stripped value), the raw minimum length 6 on `password`, and the 20
and 200 maxima on `phone` and `address`; on the concrete input with a bad
email, a short password and no names, the error cites `email`,
`password`, `first_name` and `last_name`. -/
theorem C5_validation_errors :
    (∀ (data : List (String × Value)) (salt : Nat) (f : String),
        f ∈ ["first_name", "last_name", "email", "password"] →
        data.lookup f = none →
        customer_load data salt =
          Except.error (validate_customer (process_input data)) ∧
        f ∈ (validate_customer (process_input data)).map Prod.fst) ∧
    (∀ (data : List (String × Value)) (salt : Nat) (s : String),
        data.lookup "email" = some (Value.vstr s) →
        is_valid_email (py_strip s) = false →
        customer_load data salt =
          Except.error (validate_customer (process_input data)) ∧
        "email" ∈ (validate_customer (process_input data)).map Prod.fst) ∧
    (∀ (data : List (String × Value)) (salt : Nat) (f s : String),
        f ∈ ["first_name", "last_name"] →
        data.lookup f = some (Value.vstr s) →
        ((py_strip s).length < 1 ∨ 50 < (py_strip s).length) →
        customer_load data salt =
          Except.error (validate_customer (process_input data)) ∧
        f ∈ (validate_customer (process_input data)).map Prod.fst) ∧
    (∀ (data : List (String × Value)) (salt : Nat) (p : String),
        data.lookup "password" = some (Value.vstr p) →
        p.length < 6 →
        customer_load data salt =
          Except.error (validate_customer (process_input data)) ∧
        "password" ∈ (validate_customer (process_input data)).map Prod.fst) ∧
    (∀ (data : List (String × Value)) (salt : Nat) (s : String),
        data.lookup "phone" = some (Value.vstr s) →
        20 < (py_strip s).length →
        customer_load data salt =
          Except.error (validate_customer (process_input data)) ∧
        "phone" ∈ (validate_customer (process_input data)).map Prod.fst) ∧
    (∀ (data : List (String × Value)) (salt : Nat) (s : String),
        data.lookup "address" = some (Value.vstr s) →
        200 < (py_strip s).length →
        customer_load data salt =
          Except.error (validate_customer (process_input data)) ∧
        "address" ∈ (validate_customer (process_input data)).map Prod.fst) ∧
    customer_load [("email", Value.vstr "bad-email"), ("password", Value.vstr "123")] 0 =
      Except.error
        [("first_name", ["Missing data for required field."]),
         ("last_name", ["Missing data for required field."]),
         ("email", ["Not a valid email address."]),
         ("password", ["Shorter than minimum length 6."])] := by
  refine ⟨?_, ?_, ?_, ?_, ?_, ?_, rfl⟩
  · intro data salt f hf hnone
    have hl : (process_input data).lookup f = none := by
      rw [lookup_process_input, hnone]
      rfl
    have hf4 : f = "first_name" ∨ f = "last_name" ∨ f = "email" ∨ f = "password" := by
      simpa using hf
    have hmem : (f, ["Missing data for required field."])
        ∈ validate_customer (process_input data) := by
      rcases hf4 with rfl | rfl | rfl | rfl
      · have hc := check_required_str_of_missing (process_input data)
          "first_name" check_len_1_50 hl
        unfold validate_customer
        simp [hc]
      · have hc := check_required_str_of_missing (process_input data)
          "last_name" check_len_1_50 hl
        unfold validate_customer
        simp [hc]
      · have hc := check_email_field_of_missing (process_input data) "email" hl
        unfold validate_customer
        simp [hc]
      · have hc := check_required_str_of_missing (process_input data)
          "password" check_len_min_6 hl
        unfold validate_customer
        simp [hc]
    exact load_error_of_mem hmem
  · intro data salt s hs hbad
    have hl : (process_input data).lookup "email" = some (Value.vstr (py_strip s)) := by
      rw [lookup_process_input, hs]
      simp [norm_value]
    have hc : check_email_field (process_input data) "email"
        = [("email", ["Not a valid email address."])] := by
      unfold check_email_field
      rw [hl]
      simp [hbad]
    have hmem : ("email", ["Not a valid email address."])
        ∈ validate_customer (process_input data) := by
      unfold validate_customer
      simp [hc]
    exact load_error_of_mem hmem
  · intro data salt f s hf hs hbad
    have hc : check_len_1_50 (py_strip s) = ["Length must be between 1 and 50."] := by
      unfold check_len_1_50
      exact if_pos hbad
    have hf2 : f = "first_name" ∨ f = "last_name" := by
      simpa using hf
    have hmem : (f, ["Length must be between 1 and 50."])
        ∈ validate_customer (process_input data) := by
      rcases hf2 with rfl | rfl
      · have hk : ("first_name" : String) ≠ "password" := by decide
        have hl : (process_input data).lookup "first_name"
            = some (Value.vstr (py_strip s)) := by
          rw [lookup_process_input, hs]
          simp [hk, norm_value]
        have herr := check_required_str_of_violation (process_input data)
          "first_name" check_len_1_50 (py_strip s) _ _ hl hc
        unfold validate_customer
        simp [herr]
      · have hk : ("last_name" : String) ≠ "password" := by decide
        have hl : (process_input data).lookup "last_name"
            = some (Value.vstr (py_strip s)) := by
          rw [lookup_process_input, hs]
          simp [hk, norm_value]
        have herr := check_required_str_of_violation (process_input data)
          "last_name" check_len_1_50 (py_strip s) _ _ hl hc
        unfold validate_customer
        simp [herr]
    exact load_error_of_mem hmem
  · intro data salt p hp hlen
    have hl : (process_input data).lookup "password" = some (Value.vstr p) := by
      rw [lookup_process_input, hp]
      simp
    have hc : check_len_min_6 p = ["Shorter than minimum length 6."] := by
      unfold check_len_min_6
      exact if_pos hlen
    have herr := check_required_str_of_violation (process_input data)
      "password" check_len_min_6 p _ _ hl hc
    have hmem : ("password", ["Shorter than minimum length 6."])
        ∈ validate_customer (process_input data) := by
      unfold validate_customer
      simp [herr]
    exact load_error_of_mem hmem
  · intro data salt s hs hlen
    have hk : ("phone" : String) ≠ "password" := by decide
    have hl : (process_input data).lookup "phone"
        = some (Value.vstr (py_strip s)) := by
      rw [lookup_process_input, hs]
      simp [hk, norm_value]
    have hc : check_len_max_20 (py_strip s) = ["Longer than maximum length 20."] := by
      unfold check_len_max_20
      exact if_pos hlen
    have herr := check_optional_str_of_violation (process_input data)
      "phone" check_len_max_20 (py_strip s) _ _ hl hc
    have hmem : ("phone", ["Longer than maximum length 20."])
        ∈ validate_customer (process_input data) := by
      unfold validate_customer
      simp [herr]
    exact load_error_of_mem hmem
  · intro data salt s hs hlen
    have hk : ("address" : String) ≠ "password" := by decide
    have hl : (process_input data).lookup "address"
        = some (Value.vstr (py_strip s)) := by
      rw [lookup_process_input, hs]
      simp [hk, norm_value]
    have hc : check_len_max_200 (py_strip s) = ["Longer than maximum length 200."] := by
      unfold check_len_max_200
      exact if_pos hlen
    have herr := check_optional_str_of_violation (process_input data)
      "address" check_len_max_200 (py_strip s) _ _ hl hc
    have hmem : ("address", ["Longer than maximum length 200."])
        ∈ validate_customer (process_input data) := by
      unfold validate_customer
      simp [herr]
    exact load_error_of_mem hmem

set_option maxRecDepth 4000 in
/-- C5, witness: each part of the theorem evaluated on a concrete input —
a missing `first_name`, a malformed email, an empty `first_name`, a
3-character password, a 21-character phone and a 201-character address. -/
theorem C5_witness :
    (customer_load [("email", Value.vstr "e@x.io")] 0 =
      Except.error (validate_customer (process_input [("email", Value.vstr "e@x.io")])) ∧
     "first_name" ∈ (validate_customer
        (process_input [("email", Value.vstr "e@x.io")])).map Prod.fst) ∧
    (customer_load [("email", Value.vstr "bad-email")] 0 =
      Except.error (validate_customer (process_input [("email", Value.vstr "bad-email")])) ∧
     "email" ∈ (validate_customer
        (process_input [("email", Value.vstr "bad-email")])).map Prod.fst) ∧
    (customer_load [("first_name", Value.vstr "")] 0 =
      Except.error (validate_customer (process_input [("first_name", Value.vstr "")])) ∧
     "first_name" ∈ (validate_customer
        (process_input [("first_name", Value.vstr "")])).map Prod.fst) ∧
    (customer_load [("password", Value.vstr "123")] 0 =
      Except.error (validate_customer (process_input [("password", Value.vstr "123")])) ∧
     "password" ∈ (validate_customer
        (process_input [("password", Value.vstr "123")])).map Prod.fst) ∧
    (customer_load [("phone", Value.vstr "123456789012345678901")] 0 =
      Except.error (validate_customer
        (process_input [("phone", Value.vstr "123456789012345678901")])) ∧
     "phone" ∈ (validate_customer
        (process_input [("phone", Value.vstr "123456789012345678901")])).map Prod.fst) ∧
    (customer_load [("address", Value.vstr (String.mk (List.replicate 201 'a')))] 0 =
      Except.error (validate_customer
        (process_input [("address", Value.vstr (String.mk (List.replicate 201 'a')))])) ∧
     "address" ∈ (validate_customer
        (process_input [("address",
          Value.vstr (String.mk (List.replicate 201 'a')))])).map Prod.fst) :=
  ⟨C5_validation_errors.1 [("email", Value.vstr "e@x.io")] 0 "first_name"
      (by decide) rfl,
   C5_validation_errors.2.1 [("email", Value.vstr "bad-email")] 0 "bad-email"
      rfl rfl,
   C5_validation_errors.2.2.1 [("first_name", Value.vstr "")] 0 "first_name" ""
      (by decide) rfl (by decide),
   C5_validation_errors.2.2.2.1 [("password", Value.vstr "123")] 0 "123"
      rfl (by decide),
   C5_validation_errors.2.2.2.2.1 [("phone", Value.vstr "123456789012345678901")] 0
      "123456789012345678901" rfl (by decide),
   C5_validation_errors.2.2.2.2.2.1
      [("address", Value.vstr (String.mk (List.replicate 201 'a')))] 0
      (String.mk (List.replicate 201 'a')) rfl (by decide)⟩

/-- C6: the Login validator checks exactly the two credential fields —
it accepts a valid email with a six-character password, rejects the same
email with a three-character password naming `password`, and rejects any
extra field as unknown, all independently of the Customer validator
(no name fields are required). -/
theorem C6_login_schema :
    validate_login [("email", Value.vstr "a@b.com"), ("password", Value.vstr "abcdef")]
      = [] ∧
    login_load [("email", Value.vstr "a@b.com"), ("password", Value.vstr "abcdef")] =
      Except.ok { email := "a@b.com", password := "abcdef" } ∧
    login_load [("email", Value.vstr "a@b.com"), ("password", Value.vstr "abc")] =
      Except.error [("password", ["Shorter than minimum length 6."])] ∧
    login_load [("email", Value.vstr "a@b.com"), ("password", Value.vstr "abcdef"),
        ("first_name", Value.vstr "Ann")] =
      Except.error [("first_name", ["Unknown field."])] :=
  ⟨rfl, rfl, rfl, rfl⟩

/-- C2: no dump output ever contains a `password` key — `password` is
declared `load_only=True`, so both the full schema and the simple schema
omit it for every record. -/
theorem C2_dump_no_password (r : CustomerRecord) :
    "password" ∉ (customer_schema_dump r).map Prod.fst ∧
    "password" ∉ (customer_simple_schema_dump r).map Prod.fst := by
  rw [customer_schema_dump, customer_simple_schema_dump,
    customer_dump_keys, customer_dump_keys]
  exact ⟨by decide, by decide⟩

/-- C7: for every record the full dump carries the `service_tickets` key,
holding the nested ticket projections each of which omits the `customer`
back-reference; the simple dump omits `service_tickets`; and the simple
dump is exactly the full dump with that single entry removed. -/
theorem C7_full_vs_simple (r : CustomerRecord) :
    "service_tickets" ∈ (customer_schema_dump r).map Prod.fst ∧
    (customer_schema_dump r).lookup "service_tickets" =
      some (DVal.nested_many (r.service_tickets.map service_ticket_dump)) ∧
    (∀ t : ServiceTicket, "customer" ∉ (service_ticket_dump t).map Prod.fst) ∧
    "service_tickets" ∉ (customer_simple_schema_dump r).map Prod.fst ∧
    customer_simple_schema_dump r =
      (customer_schema_dump r).filter (fun kv => kv.1 != "service_tickets") := by
  refine ⟨?_, rfl, ?_, ?_, rfl⟩
  · rw [customer_schema_dump, customer_dump_keys]
    decide
  · intro t
    show "customer" ∉ (["id", "description", "customer_id"] : List String)
    decide
  · rw [customer_simple_schema_dump, customer_dump_keys]
    decide

/-- C8: Dump performs no validation and never fails — it is a total
projection whose output carries the full key list for every record,
including a record that violates every Load-side constraint (empty names,
malformed email, one-character password); only Load has an error outcome. -/
theorem C8_dump_never_fails (r : CustomerRecord) :
    (customer_schema_dump r).map Prod.fst = customer_dump_field_names ∧
    (customer_simple_schema_dump r).map Prod.fst =
      ["first_name", "last_name", "email", "phone", "address", "id", "created_at"] ∧
    customer_schema_dump
      { id := 1, first_name := "", last_name := "", email := "not-an-email",
        password := "x", phone := none, address := none, created_at := "now",
        service_tickets := [] } =
      [("first_name", DVal.prim (Value.vstr "")),
       ("last_name", DVal.prim (Value.vstr "")),
       ("email", DVal.prim (Value.vstr "not-an-email")),
       ("phone", DVal.prim Value.vnone),
       ("address", DVal.prim Value.vnone),
       ("id", DVal.prim (Value.vint 1)),
       ("created_at", DVal.prim (Value.vstr "now")),
       ("service_tickets", DVal.nested_many [])] := by
  refine ⟨?_, ?_, rfl⟩
  · rw [customer_schema_dump, customer_dump_keys]
    rfl
  · rw [customer_simple_schema_dump, customer_dump_keys]
    rfl

/-- A list mapped onto itself fixes each of its elements. -/
theorem fix_of_map_eq_self {α : Type} {f : α → α} :
    ∀ {l : List α}, l.map f = l → ∀ x ∈ l, f x = x := by
  intro l
  induction l with
  | nil => intro h x hx; cases hx
  | cons a t ih =>
    intro h x hx
    rw [List.map_cons, List.cons.injEq] at h
    rcases List.mem_cons.mp hx with rfl | hx2
    · exact h.1
    · exact ih h.2 x hx2

/-- C9, counterexample: the claim that after Load "the input object
observed by the caller afterwards is not the one it passed in unchanged"
fails on an input whose string entries carry no surrounding whitespace —
the in-place assignments write back the very same values and the caller
observes its mapping unchanged. -/
theorem C9_counterexample :
    (customer_load_state [("first_name", Value.vstr "Ann"), ("last_name", Value.vstr "Lee"),
        ("email", Value.vstr "ann@example.com"), ("password", Value.vstr "secret1")] 0).2 =
      [("first_name", Value.vstr "Ann"), ("last_name", Value.vstr "Lee"),
       ("email", Value.vstr "ann@example.com"), ("password", Value.vstr "secret1")] := rfl

/-- C9, amended: the normalization step mutates the input mapping the
caller passed, before validation: afterwards every string-valued entry
except `password` holds its stripped form, the `password` entry is
untouched, and the observed mapping differs from the original whenever
some string entry other than `password` was not already stripped. -/
theorem C9_in_place_normalization (data : List (String × Value)) (salt : Nat) :
    (∀ k s, k ≠ "password" → data.lookup k = some (Value.vstr s) →
      ((customer_load_state data salt).2).lookup k = some (Value.vstr (py_strip s))) ∧
    ((customer_load_state data salt).2).lookup "password" = data.lookup "password" ∧
    (∀ k s, (k, Value.vstr s) ∈ data → k ≠ "password" → py_strip s ≠ s →
      (customer_load_state data salt).2 ≠ data) := by
  refine ⟨?_, ?_, ?_⟩
  · intro k s hk hl
    show (process_input data).lookup k = some (Value.vstr (py_strip s))
    rw [lookup_process_input, hl]
    simp [hk, norm_value]
  · show (process_input data).lookup "password" = data.lookup "password"
    rw [lookup_process_input]
    cases data.lookup "password" <;> simp
  · intro k s hmem hk hs heq
    have hfix : norm_entry (k, Value.vstr s) = (k, Value.vstr s) :=
      fix_of_map_eq_self (heq : data.map norm_entry = data) _ hmem
    have hvs : Value.vstr (py_strip s) = Value.vstr s := by
      have h2 := congrArg Prod.snd hfix
      simpa [norm_entry, hk, norm_value] using h2
    exact hs (Value.vstr.inj hvs)

/-- C9, witness: the amended theorem evaluated on a mapping holding a
padded name — the observed mapping carries the stripped name and differs
from the mapping passed in. -/
theorem C9_witness :
    ((customer_load_state [("first_name", Value.vstr " Ann "),
        ("password", Value.vstr "secret1")] 0).2).lookup "first_name"
      = some (Value.vstr "Ann") ∧
    (customer_load_state [("first_name", Value.vstr " Ann "),
        ("password", Value.vstr "secret1")] 0).2 ≠
      [("first_name", Value.vstr " Ann "), ("password", Value.vstr "secret1")] :=
  ⟨(C9_in_place_normalization [("first_name", Value.vstr " Ann "),
      ("password", Value.vstr "secret1")] 0).1 "first_name" " Ann " (by decide) rfl,
   (C9_in_place_normalization [("first_name", Value.vstr " Ann "),
      ("password", Value.vstr "secret1")] 0).2.2 "first_name" " Ann "
      (by decide) (by decide) (by decide)⟩
